import Mathlib

/-!
Shallow embedding of the Logistics service (`src/app/app.py`): a Flask app
over three in-memory dictionaries (`orders`, `shipments`, `inventory`).
JSON request bodies are modelled by the `Json` type, handlers by pure
functions `State → … → Response × State`, and `datetime.utcnow().isoformat()`
by an explicit `now : String` argument.
-/

/-- A JSON value, as produced by `request.get_json()`. -/
inductive Json where
  | null
  | bool (b : Bool)
  | int (n : Int)
  | float (q : ℚ)
  | str (s : String)
  | arr (xs : List Json)
  | obj (fs : List (String × Json))
deriving Repr

mutual

/-- Decidable structural equality of JSON values (Python `==` restricted
to same-shaped values, which is all the handlers ever compare). -/
def Json.deq : (a b : Json) → Decidable (a = b)
  | .null, .null => isTrue rfl
  | .bool a, .bool b =>
    match decEq a b with
    | isTrue h => isTrue (congrArg Json.bool h)
    | isFalse h => isFalse fun e => h (by injection e)
  | .int a, .int b =>
    match decEq a b with
    | isTrue h => isTrue (congrArg Json.int h)
    | isFalse h => isFalse fun e => h (by injection e)
  | .float a, .float b =>
    match decEq a b with
    | isTrue h => isTrue (congrArg Json.float h)
    | isFalse h => isFalse fun e => h (by injection e)
  | .str a, .str b =>
    match decEq a b with
    | isTrue h => isTrue (congrArg Json.str h)
    | isFalse h => isFalse fun e => h (by injection e)
  | .arr a, .arr b =>
    match Json.deqList a b with
    | isTrue h => isTrue (congrArg Json.arr h)
    | isFalse h => isFalse fun e => h (by injection e)
  | .obj a, .obj b =>
    match Json.deqObj a b with
    | isTrue h => isTrue (congrArg Json.obj h)
    | isFalse h => isFalse fun e => h (by injection e)
  | .null, .bool _ | .null, .int _ | .null, .float _ | .null, .str _
  | .null, .arr _ | .null, .obj _
  | .bool _, .null | .bool _, .int _ | .bool _, .float _ | .bool _, .str _
  | .bool _, .arr _ | .bool _, .obj _
  | .int _, .null | .int _, .bool _ | .int _, .float _ | .int _, .str _
  | .int _, .arr _ | .int _, .obj _
  | .float _, .null | .float _, .bool _ | .float _, .int _ | .float _, .str _
  | .float _, .arr _ | .float _, .obj _
  | .str _, .null | .str _, .bool _ | .str _, .int _ | .str _, .float _
  | .str _, .arr _ | .str _, .obj _
  | .arr _, .null | .arr _, .bool _ | .arr _, .int _ | .arr _, .float _
  | .arr _, .str _ | .arr _, .obj _
  | .obj _, .null | .obj _, .bool _ | .obj _, .int _ | .obj _, .float _
  | .obj _, .str _ | .obj _, .arr _ => isFalse fun e => by injection e

def Json.deqList : (a b : List Json) → Decidable (a = b)
  | [], [] => isTrue rfl
  | [], _ :: _ => isFalse fun e => by injection e
  | _ :: _, [] => isFalse fun e => by injection e
  | x :: xs, y :: ys =>
    match Json.deq x y, Json.deqList xs ys with
    | isTrue h1, isTrue h2 => isTrue (by rw [h1, h2])
    | isFalse h1, _ => isFalse fun e => h1 (by injection e)
    | _, isFalse h2 => isFalse fun e => h2 (by injection e)

def Json.deqObj : (a b : List (String × Json)) → Decidable (a = b)
  | [], [] => isTrue rfl
  | [], _ :: _ => isFalse fun e => by injection e
  | _ :: _, [] => isFalse fun e => by injection e
  | (k, v) :: xs, (l, w) :: ys =>
    match decEq k l, Json.deq v w, Json.deqObj xs ys with
    | isTrue h1, isTrue h2, isTrue h3 => isTrue (by rw [h1, h2, h3])
    | isFalse h1, _, _ =>
      isFalse fun e => h1 (by injection e with e1 e2; exact congrArg Prod.fst e1)
    | _, isFalse h2, _ =>
      isFalse fun e => h2 (by injection e with e1 e2; exact congrArg Prod.snd e1)
    | _, _, isFalse h3 => isFalse fun e => h3 (by injection e)

end

instance : DecidableEq Json := Json.deq

/-- A JSON object body, i.e. the result of `request.get_json()` when the
request carried a JSON object (`None` at the call site is modelled by
`Option Body`). Python dicts have unique keys; lookups take the first hit. -/
def Body := List (String × Json)

/-- Python `k in data` for a dict body. -/
def Body.hasKey (b : Body) (k : String) : Bool :=
  (List.any b fun p => p.1 == k)

/-- Python `data[k]` / `data.get(k)` for a dict body. -/
def Body.get (b : Body) (k : String) : Option Json :=
  (List.find? (fun p => p.1 == k) b).map Prod.snd

/-- Python `data.get(k, d)` for a dict body. -/
def Body.getD (b : Body) (k : String) (d : Json) : Json :=
  (Body.get b k).getD d

/-- Python truthiness of the parsed body: `None` and the empty dict are
falsy, a non-empty dict is truthy (`if not data: …`). -/
def bodyTruthy : Option Body → Bool
  | none => false
  | some b => !b.isEmpty

/-- Python `k in data` guarded by short-circuit after the truthiness test. -/
def bodyHasKey (data : Option Body) (k : String) : Bool :=
  match data with
  | none => false
  | some b => Body.hasKey b k

/-- Value of digit characters, `'0'` ↦ 0 … `'9'` ↦ 9. -/
def digitVal (c : Char) : Nat := c.toNat - 48

/-- Parse the digit part of a Python integer literal: one or more ASCII
digits, with single underscores permitted strictly between digits. The
first character has already been checked to be a digit. -/
def pyDigits : List Char → Nat → Option Nat
  | [], acc => some acc
  | c :: cs, acc =>
    if c.isDigit then pyDigits cs (acc * 10 + digitVal c)
    else if c = '_' then
      match cs with
      | c2 :: cs2 =>
        if c2.isDigit then pyDigits cs2 (acc * 10 + digitVal c2) else none
      | [] => none
    else none

/-- Python `int(s)` for a string `s`: optional surrounding whitespace, an
optional sign, then a digit run (underscore grouping allowed). `none`
models `ValueError`. -/
def pyIntOfStr (s : String) : Option Int :=
  let cs := ((s.toList.dropWhile Char.isWhitespace).reverse.dropWhile
    Char.isWhitespace).reverse
  match cs with
  | '+' :: c :: rest =>
    if c.isDigit then (pyDigits rest (digitVal c)).map Int.ofNat else none
  | '-' :: c :: rest =>
    if c.isDigit then (pyDigits rest (digitVal c)).map (fun n => -(n : Int))
    else none
  | c :: rest =>
    if c.isDigit then (pyDigits rest (digitVal c)).map Int.ofNat else none
  | [] => none

/-- Truncation of a rational toward zero, matching Python `int(float)`. -/
def ratTrunc (q : ℚ) : Int := Int.tdiv q.num (Int.ofNat q.den)

/-- Python `int(x)` on a JSON-decoded value: `none` models the
`(ValueError, TypeError)` the handlers catch. Booleans convert as 1/0,
floats truncate toward zero, strings parse as integer literals; `None`,
lists and dicts raise `TypeError`. -/
def pyInt : Json → Option Int
  | .int n => some n
  | .bool b => some (if b then 1 else 0)
  | .float q => some (ratTrunc q)
  | .str s => pyIntOfStr s
  | .null => none
  | .arr _ => none
  | .obj _ => none

/-- One entry of a shipment's `tracking_history`. The entry written at
creation has no `notes` key; entries appended by location updates do. -/
structure TrackingEntry where
  location : Json
  status : Json
  timestamp : String
  notes : Option Json
deriving Repr, DecidableEq

/-- A record of the `shipments` dict (`app.py`, `create_shipment`). -/
structure Shipment where
  shipment_id : Json
  origin : Json
  destination : Json
  status : Json
  current_location : Json
  created_at : String
  estimated_delivery : Json
  tracking_history : List TrackingEntry
deriving Repr, DecidableEq

/-- A record of the `inventory` dict (`app.py`, `add_inventory_item`). -/
structure InventoryItem where
  item_id : Json
  name : Json
  quantity : Int
  location : Json
  category : Json
  last_updated : String
deriving Repr, DecidableEq

/-- A record of the `orders` dict (`app.py`, `create_order`). -/
structure Order where
  order_id : Json
  customer : Json
  items : Json
  status : String
  created_at : String
deriving Repr, DecidableEq

/-- The three module-level dicts, as insertion-ordered association lists
(Python dicts preserve insertion order, which `list(….values())` exposes). -/
structure State where
  shipments : List (Json × Shipment)
  inventory : List (Json × InventoryItem)
  orders : List (Json × Order)
deriving Repr, DecidableEq

def State.empty : State := ⟨[], [], []⟩

/-- Dict lookup `m[k]` / `k in m`, first (unique) matching key. -/
def alookup {α : Type} (m : List (Json × α)) (k : Json) : Option α :=
  match m with
  | [] => none
  | (k1, v) :: t => if k = k1 then some v else alookup t k

/-- Dict assignment `m[k] = v`: overwrite in place if the key exists,
else append (Python dicts keep the original key and position). -/
def aset {α : Type} (m : List (Json × α)) (k : Json) (v : α) :
    List (Json × α) :=
  match m with
  | [] => [(k, v)]
  | (k1, v1) :: t =>
    if k = k1 then (k1, v) :: t else (k1, v1) :: aset t k v

/-- An HTTP response: status code and JSON body, as built by
`jsonify(…), code`. -/
structure Response where
  status : Nat
  body : Json
deriving Repr, DecidableEq

def errResp (code : Nat) (msg : String) : Response :=
  ⟨code, .obj [("error", .str msg)]⟩

def requiredResp (fields : List String) : Response :=
  ⟨400, .obj [("error", .str "Missing required fields"),
              ("required", .arr (fields.map Json.str))]⟩

def Order.toJson (o : Order) : Json :=
  .obj [("order_id", o.order_id), ("customer", o.customer),
        ("items", o.items), ("status", .str o.status),
        ("created_at", .str o.created_at)]

def TrackingEntry.toJson (e : TrackingEntry) : Json :=
  .obj ([("location", e.location), ("status", e.status),
         ("timestamp", .str e.timestamp)] ++
    match e.notes with
    | none => []
    | some n => [("notes", n)])

def Shipment.toJson (s : Shipment) : Json :=
  .obj [("shipment_id", s.shipment_id), ("origin", s.origin),
        ("destination", s.destination), ("status", s.status),
        ("current_location", s.current_location),
        ("created_at", .str s.created_at),
        ("estimated_delivery", s.estimated_delivery),
        ("tracking_history", .arr (s.tracking_history.map
          TrackingEntry.toJson))]

def InventoryItem.toJson (it : InventoryItem) : Json :=
  .obj [("item_id", it.item_id), ("name", it.name),
        ("quantity", .int it.quantity), ("location", it.location),
        ("category", it.category), ("last_updated", .str it.last_updated)]

/-- `POST /order` (`create_order` in `app.py`). -/
def create_order (now : String) (st : State) (data : Option Body) :
    Response × State :=
  if !bodyTruthy data || !bodyHasKey data "order_id" then
    (errResp 400 "Invalid order data - order_id is required", st)
  else
    let b := data.getD []
    let order_id := b.getD "order_id" .null
    if (alookup st.orders order_id).isSome then
      (errResp 409 "Order already exists", st)
    else
      let o : Order :=
        { order_id := order_id
          customer := b.getD "customer" (.str "Unknown")
          items := b.getD "items" (.arr [])
          status := "created"
          created_at := now }
      (⟨201, .obj [("message", .str "Order created successfully"),
                   ("order", o.toJson)]⟩,
       { st with orders := aset st.orders order_id o })

/-- `GET /order/<order_id>` (`get_order` in `app.py`). -/
def get_order (st : State) (order_id : String) : Response :=
  match alookup st.orders (.str order_id) with
  | none => errResp 404 "Order not found"
  | some o => ⟨200, o.toJson⟩

/-- `POST /shipment` (`create_shipment` in `app.py`). -/
def create_shipment (now : String) (st : State) (data : Option Body) :
    Response × State :=
  if !bodyTruthy data || !(bodyHasKey data "shipment_id" &&
      bodyHasKey data "origin" && bodyHasKey data "destination") then
    (requiredResp ["shipment_id", "origin", "destination"], st)
  else
    let b := data.getD []
    let shipment_id := b.getD "shipment_id" .null
    if (alookup st.shipments shipment_id).isSome then
      (errResp 409 "Shipment already exists", st)
    else
      let s : Shipment :=
        { shipment_id := shipment_id
          origin := b.getD "origin" .null
          destination := b.getD "destination" .null
          status := .str "pending"
          current_location := b.getD "origin" .null
          created_at := now
          estimated_delivery := b.getD "estimated_delivery" .null
          tracking_history :=
            [{ location := b.getD "origin" .null
               status := .str "pending"
               timestamp := now
               notes := none }] }
      (⟨201, .obj [("message", .str "Shipment created successfully"),
                   ("shipment", s.toJson)]⟩,
       { st with shipments := aset st.shipments shipment_id s })

/-- `GET /shipment/<shipment_id>` (`get_shipment` in `app.py`). -/
def get_shipment (st : State) (shipment_id : String) : Response :=
  match alookup st.shipments (.str shipment_id) with
  | none => errResp 404 "Shipment not found"
  | some s => ⟨200, s.toJson⟩

/-- `PUT /shipment/<shipment_id>/location` (`update_shipment_location`). -/
def update_shipment_location (now : String) (st : State)
    (shipment_id : String) (data : Option Body) : Response × State :=
  match alookup st.shipments (.str shipment_id) with
  | none => (errResp 404 "Shipment not found", st)
  | some s =>
    if !bodyTruthy data || !bodyHasKey data "location" then
      (errResp 400 "Location is required", st)
    else
      let b := data.getD []
      let newStatus := b.getD "status" (.str "in_transit")
      let s1 : Shipment :=
        { s with
          current_location := b.getD "location" .null
          status := newStatus
          tracking_history := s.tracking_history ++
            [{ location := b.getD "location" .null
               status := newStatus
               timestamp := now
               notes := some (b.getD "notes" (.str "")) }] }
      (⟨200, .obj [("message", .str "Location updated successfully"),
                   ("shipment", s1.toJson)]⟩,
       { st with shipments := aset st.shipments (.str shipment_id) s1 })

/-- Python truthiness of `request.args.get('status')`: `None` and the
empty string are falsy. -/
def strOptTruthy : Option String → Bool
  | none => false
  | some s => !s.isEmpty

/-- `GET /shipments` (`list_shipments` in `app.py`). `status_filter` is
`request.args.get('status')`: `none` when the query parameter is absent. -/
def list_shipments (st : State) (status_filter : Option String) : Response :=
  let vals := st.shipments.map Prod.snd
  let filtered :=
    if strOptTruthy status_filter then
      vals.filter fun s => decide (s.status = .str (status_filter.getD ""))
    else vals
  ⟨200, .obj [("count", .int filtered.length),
              ("shipments", .arr (filtered.map Shipment.toJson))]⟩

/-- `GET /inventory` (`get_inventory` in `app.py`). -/
def get_inventory (st : State) : Response :=
  ⟨200, .obj [("count", .int st.inventory.length),
              ("inventory", .arr ((st.inventory.map Prod.snd).map
                InventoryItem.toJson))]⟩

/-- `POST /inventory` (`add_inventory_item` in `app.py`). -/
def add_inventory_item (now : String) (st : State) (data : Option Body) :
    Response × State :=
  if !bodyTruthy data || !(bodyHasKey data "item_id" &&
      bodyHasKey data "name" && bodyHasKey data "quantity") then
    (requiredResp ["item_id", "name", "quantity"], st)
  else
    let b := data.getD []
    let item_id := b.getD "item_id" .null
    if (alookup st.inventory item_id).isSome then
      (errResp 409 "Item already exists", st)
    else
      match pyInt (b.getD "quantity" .null) with
      | none => (errResp 400 "Quantity must be a valid integer", st)
      | some q =>
        if q < 0 then (errResp 400 "Quantity must be non-negative", st)
        else
          let it : InventoryItem :=
            { item_id := item_id
              name := b.getD "name" .null
              quantity := q
              location := b.getD "location" (.str "Warehouse")
              category := b.getD "category" (.str "General")
              last_updated := now }
          (⟨201, .obj [("message", .str "Inventory item added successfully"),
                       ("item", it.toJson)]⟩,
           { st with inventory := aset st.inventory item_id it })

/-- `GET /inventory/<item_id>` (`get_inventory_item` in `app.py`). -/
def get_inventory_item (st : State) (item_id : String) : Response :=
  match alookup st.inventory (.str item_id) with
  | none => errResp 404 "Item not found"
  | some it => ⟨200, it.toJson⟩

/-- `PUT /inventory/<item_id>/stock` (`update_stock` in `app.py`). -/
def update_stock (now : String) (st : State) (item_id : String)
    (data : Option Body) : Response × State :=
  match alookup st.inventory (.str item_id) with
  | none => (errResp 404 "Item not found", st)
  | some it =>
    if !bodyTruthy data || !bodyHasKey data "quantity" then
      (errResp 400 "Quantity is required", st)
    else
      let b := data.getD []
      match pyInt (b.getD "quantity" .null) with
      | none => (errResp 400 "Quantity must be a valid integer", st)
      | some q =>
        if q < 0 then (errResp 400 "Quantity must be non-negative", st)
        else
          let it1 : InventoryItem := { it with quantity := q, last_updated := now }
          (⟨200, .obj [("message", .str "Stock updated successfully"),
                       ("item", it1.toJson)]⟩,
           { st with inventory := aset st.inventory (.str item_id) it1 })

/-- `POST /route/optimize` (`optimize_route` in `app.py`). The handler
never mentions the module-level dicts, so its embedding takes no state. -/
def optimize_route (data : Option Body) : Response :=
  if !bodyTruthy data || !(bodyHasKey data "start" &&
      bodyHasKey data "waypoints" && bodyHasKey data "end") then
    requiredResp ["start", "waypoints", "end"]
  else
    let b := data.getD []
    match b.getD "waypoints" .null with
    | .arr ws =>
      let total_stops := ws.length + 1
      let estimated_time := total_stops * 30
      ⟨200, .obj [("message", .str "Route optimized successfully"),
        ("route", .obj [("start", b.getD "start" .null),
          ("waypoints", .arr ws), ("end", b.getD "end" .null),
          ("total_stops", .int total_stops),
          ("estimated_time_minutes", .int estimated_time),
          ("optimized", .bool true),
          ("route_efficiency", .str "optimal")])]⟩
    | _ => errResp 400 "Waypoints must be a list"

/-- The route-optimization endpoint at the system level: the response is a
function of the body alone and the three collections pass through. -/
def optimize_route_sys (st : State) (data : Option Body) :
    Response × State :=
  (optimize_route data, st)

/-- States reachable from the empty store by any sequence of
`add_inventory_item` and `update_stock` calls (claim C1). -/
inductive ReachInv : State → Prop where
  | empty : ReachInv State.empty
  | add (now : String) (data : Option Body) {st : State} :
      ReachInv st → ReachInv (add_inventory_item now st data).2
  | upd (now : String) (item_id : String) (data : Option Body) {st : State} :
      ReachInv st → ReachInv (update_stock now st item_id data).2

/-- Every item stored in the inventory collection has quantity ≥ 0. -/
def invQuantOK (st : State) : Prop :=
  ∀ k it, alookup st.inventory k = some it → 0 ≤ it.quantity

/-- The tracking entry `update_shipment_location` appends for a call with
timestamp `now` and body `b`. -/
def updEntry (now : String) (b : Body) : TrackingEntry :=
  { location := Body.getD b "location" .null
    status := Body.getD b "status" (.str "in_transit")
    timestamp := now
    notes := some (Body.getD b "notes" (.str "")) }

/-- Apply a sequence of `update_shipment_location` calls, each given as a
(timestamp, body) pair, to the shipment with id `sid`. -/
def applyUpdates (sid : String) (st : State)
    (calls : List (String × Body)) : State :=
  calls.foldl
    (fun s c => (update_shipment_location c.1 s sid (some c.2)).2) st

theorem alookup_aset_self {α : Type} (m : List (Json × α)) (k : Json)
    (v : α) : alookup (aset m k v) k = some v := by
  induction m with
  | nil => simp [aset, alookup]
  | cons p t ih =>
    obtain ⟨k1, v1⟩ := p
    by_cases h : k = k1
    · simp [aset, alookup, h]
    · simp [aset, alookup, h, ih]

theorem alookup_aset_ne {α : Type} (m : List (Json × α)) (k k2 : Json)
    (v : α) (h : k2 ≠ k) : alookup (aset m k v) k2 = alookup m k2 := by
  induction m with
  | nil => simp [aset, alookup, h]
  | cons p t ih =>
    obtain ⟨k1, v1⟩ := p
    by_cases h1 : k = k1
    · subst h1
      simp [aset, alookup, h]
    · by_cases h2 : k2 = k1 <;> simp [aset, alookup, h1, h2, ih]

theorem bodyTruthy_of_hasKey {b : Body} {k : String}
    (h : Body.hasKey b k = true) : bodyTruthy (some b) = true := by
  simp only [Body.hasKey, List.any_eq_true] at h
  obtain ⟨p, hp, _⟩ := h
  simp only [bodyTruthy, Bool.not_eq_true']
  cases hb : List.isEmpty b
  · rfl
  · rw [List.isEmpty_iff] at hb
    subst hb
    simp at hp

/-- C3: `optimizeRoute` is a pure function of its input. On any body
containing `start`, `waypoints` and `end`: the collections pass through
untouched; if the waypoints value is a list, the result is 200 with
total_stops = length + 1, estimated_time_minutes = total_stops * 30,
optimized = true, route_efficiency = "optimal", and start, waypoints and
end echoed unchanged; if it is not a list, the result is the 400
"Waypoints must be a list". -/
theorem optimize_route_pure (st : State) (b : Body)
    (hs : Body.hasKey b "start" = true)
    (hw : Body.hasKey b "waypoints" = true)
    (he : Body.hasKey b "end" = true) :
    (optimize_route_sys st (some b)).2 = st ∧
    (∀ ws, Body.getD b "waypoints" .null = .arr ws →
      optimize_route (some b) =
        ⟨200, .obj [("message", .str "Route optimized successfully"),
          ("route", .obj [("start", Body.getD b "start" .null),
            ("waypoints", .arr ws), ("end", Body.getD b "end" .null),
            ("total_stops", .int (ws.length + 1)),
            ("estimated_time_minutes", .int ((ws.length + 1) * 30)),
            ("optimized", .bool true),
            ("route_efficiency", .str "optimal")])]⟩) ∧
    ((∀ ws, Body.getD b "waypoints" .null ≠ .arr ws) →
      optimize_route (some b) = errResp 400 "Waypoints must be a list") := by
  have ht := bodyTruthy_of_hasKey hs
  refine ⟨rfl, ?_, ?_⟩
  · intro ws hws
    simp [optimize_route, bodyHasKey, ht, hs, hw, he, hws]
  · intro hnot
    simp only [optimize_route, bodyHasKey, ht, hs, hw, he, Bool.not_true,
      Bool.and_self, Bool.or_self, Bool.false_or, if_false, Option.getD]
    cases hws : Body.getD b "waypoints" .null with
    | arr ws => exact absurd hws (hnot ws)
    | null => rfl
    | bool v => rfl
    | int v => rfl
    | float v => rfl
    | str v => rfl
    | obj v => rfl

/-- Witness for C3 at a concrete body with one waypoint. -/
theorem optimize_route_pure_witness :
    optimize_route (some [("start", Json.str "NY"),
      ("waypoints", Json.arr [Json.str "Chicago"]),
      ("end", Json.str "LA")]) =
    ⟨200, .obj [("message", .str "Route optimized successfully"),
      ("route", .obj [("start", Json.str "NY"),
        ("waypoints", Json.arr [Json.str "Chicago"]),
        ("end", Json.str "LA"),
        ("total_stops", .int 2),
        ("estimated_time_minutes", .int 60),
        ("optimized", .bool true),
        ("route_efficiency", .str "optimal")])]⟩ :=
  (optimize_route_pure State.empty
    [("start", Json.str "NY"), ("waypoints", Json.arr [Json.str "Chicago"]),
     ("end", Json.str "LA")]
    (by decide) (by decide) (by decide)).2.1 [Json.str "Chicago"] rfl

theorem alookup_aset_cases {α : Type} (m : List (Json × α)) (key k : Json)
    (v it : α) (h : alookup (aset m key v) k = some it) :
    it = v ∨ alookup m k = some it := by
  induction m with
  | nil =>
    by_cases h2 : k = key <;> simp [aset, alookup, h2] at h
    exact Or.inl h.symm
  | cons p t ih =>
    obtain ⟨k1, v1⟩ := p
    by_cases h1 : key = k1
    · subst h1
      by_cases h2 : k = key <;> simp [aset, alookup, h2] at h ⊢
      · exact Or.inl h.symm
      · exact Or.inr h
    · by_cases h2 : k = k1 <;> simp [aset, alookup, h1, h2] at h ⊢
      · exact Or.inr h
      · exact ih h

theorem create_shipment_success (now : String) (st : State) (b : Body)
    (hs : Body.hasKey b "shipment_id" = true)
    (ho : Body.hasKey b "origin" = true)
    (hd : Body.hasKey b "destination" = true)
    (hnew : alookup st.shipments (Body.getD b "shipment_id" .null) = none) :
    create_shipment now st (some b) =
      (⟨201, .obj [("message", .str "Shipment created successfully"),
        ("shipment", Shipment.toJson
          { shipment_id := Body.getD b "shipment_id" .null
            origin := Body.getD b "origin" .null
            destination := Body.getD b "destination" .null
            status := .str "pending"
            current_location := Body.getD b "origin" .null
            created_at := now
            estimated_delivery := Body.getD b "estimated_delivery" .null
            tracking_history :=
              [{ location := Body.getD b "origin" .null
                 status := .str "pending"
                 timestamp := now
                 notes := none }] })]⟩,
       { st with
          shipments :=
            aset st.shipments (Body.getD b "shipment_id" .null)
              { shipment_id := Body.getD b "shipment_id" .null
                origin := Body.getD b "origin" .null
                destination := Body.getD b "destination" .null
                status := .str "pending"
                current_location := Body.getD b "origin" .null
                created_at := now
                estimated_delivery := Body.getD b "estimated_delivery" .null
                tracking_history :=
                  [{ location := Body.getD b "origin" .null
                     status := .str "pending"
                     timestamp := now
                     notes := none }] } }) := by
  have ht := bodyTruthy_of_hasKey hs
  simp [create_shipment, bodyHasKey, ht, hs, ho, hd, hnew]

theorem update_shipment_location_success (now : String) (st : State)
    (sid : String) (sh : Shipment) (b : Body)
    (hsh : alookup st.shipments (.str sid) = some sh)
    (hk : Body.hasKey b "location" = true) :
    update_shipment_location now st sid (some b) =
      (⟨200, .obj [("message", .str "Location updated successfully"),
        ("shipment", Shipment.toJson { sh with
          current_location := Body.getD b "location" .null
          status := Body.getD b "status" (.str "in_transit")
          tracking_history := sh.tracking_history ++ [updEntry now b] })]⟩,
       { st with
          shipments :=
            aset st.shipments (.str sid)
              { sh with
                current_location := Body.getD b "location" .null
                status := Body.getD b "status" (.str "in_transit")
                tracking_history :=
                  sh.tracking_history ++ [updEntry now b] } }) := by
  have ht := bodyTruthy_of_hasKey hk
  simp [update_shipment_location, hsh, bodyHasKey, ht, hk, updEntry]

/-- C6: `createShipment` with a body containing `shipment_id`, `origin`
and `destination` (the id not already a key) returns 201 and stores a
record with status "pending", current_location = origin and a single
tracking entry {location = origin, status = "pending"}; with any of the
three fields missing it returns the 400 listing the required field names
and leaves the store unchanged. -/
theorem create_shipment_spec (now : String) (st : State) (b : Body) :
    ((Body.hasKey b "shipment_id" && Body.hasKey b "origin" &&
        Body.hasKey b "destination") = true →
      alookup st.shipments (Body.getD b "shipment_id" .null) = none →
      (create_shipment now st (some b)).1.status = 201 ∧
      alookup (create_shipment now st (some b)).2.shipments
          (Body.getD b "shipment_id" .null) =
        some { shipment_id := Body.getD b "shipment_id" .null
               origin := Body.getD b "origin" .null
               destination := Body.getD b "destination" .null
               status := .str "pending"
               current_location := Body.getD b "origin" .null
               created_at := now
               estimated_delivery := Body.getD b "estimated_delivery" .null
               tracking_history :=
                 [{ location := Body.getD b "origin" .null
                    status := .str "pending"
                    timestamp := now
                    notes := none }] }) ∧
    ((Body.hasKey b "shipment_id" && Body.hasKey b "origin" &&
        Body.hasKey b "destination") = false →
      create_shipment now st (some b) =
        (requiredResp ["shipment_id", "origin", "destination"], st)) := by
  constructor
  · intro hall hnew
    simp only [Bool.and_eq_true] at hall
    obtain ⟨⟨hs, ho⟩, hd⟩ := hall
    rw [create_shipment_success now st b hs ho hd hnew]
    refine ⟨rfl, ?_⟩
    exact alookup_aset_self _ _ _
  · intro hall
    simp [create_shipment, bodyHasKey, hall]

/-- Witness for C6 at the spec's end-to-end example body. -/
theorem create_shipment_spec_witness :
    (create_shipment "t0" State.empty (some [("shipment_id", Json.str "SHP-001"),
        ("origin", Json.str "NY"), ("destination", Json.str "LA")])).1.status = 201 ∧
    alookup (create_shipment "t0" State.empty
        (some [("shipment_id", Json.str "SHP-001"), ("origin", Json.str "NY"),
          ("destination", Json.str "LA")])).2.shipments (Json.str "SHP-001") =
      some { shipment_id := Json.str "SHP-001"
             origin := Json.str "NY"
             destination := Json.str "LA"
             status := .str "pending"
             current_location := Json.str "NY"
             created_at := "t0"
             estimated_delivery := Json.null
             tracking_history :=
               [{ location := Json.str "NY"
                  status := .str "pending"
                  timestamp := "t0"
                  notes := none }] } :=
  (create_shipment_spec "t0" State.empty
    [("shipment_id", Json.str "SHP-001"), ("origin", Json.str "NY"),
     ("destination", Json.str "LA")]).1 (by decide) (by decide)

theorem applyUpdates_history (sid : String) (calls : List (String × Body)) :
    ∀ (st : State) (sh : Shipment),
      alookup st.shipments (.str sid) = some sh →
      (∀ c ∈ calls, Body.hasKey c.2 "location" = true) →
      ∃ sh1, alookup (applyUpdates sid st calls).shipments (.str sid) =
          some sh1 ∧
        sh1.tracking_history =
          sh.tracking_history ++ calls.map (fun c => updEntry c.1 c.2) := by
  induction calls with
  | nil =>
    intro st sh hsh _
    exact ⟨sh, hsh, by simp [applyUpdates]⟩
  | cons c cs ih =>
    intro st sh hsh hall
    have hk : Body.hasKey c.2 "location" = true :=
      hall c (List.mem_cons_self c cs)
    have hstep := update_shipment_location_success c.1 st sid sh c.2 hsh hk
    have hlook : alookup
        ((update_shipment_location c.1 st sid (some c.2)).2).shipments
          (.str sid) =
        some { sh with
               current_location := Body.getD c.2 "location" .null
               status := Body.getD c.2 "status" (.str "in_transit")
               tracking_history :=
                 sh.tracking_history ++ [updEntry c.1 c.2] } := by
      rw [hstep]
      exact alookup_aset_self _ _ _
    obtain ⟨sh1, h1, h2⟩ :=
      ih _ _ hlook (fun d hd => hall d (List.mem_cons_of_mem c hd))
    refine ⟨sh1, ?_, ?_⟩
    · simpa [applyUpdates] using h1
    · rw [h2]
      simp [applyUpdates]

/-- C2: after a successful `createShipment`, N `updateShipmentLocation`
calls whose bodies contain `location` leave the shipment's
tracking_history with exactly N + 1 entries: the creation entry first,
then one appended entry per call, in call order, never reordered or
deduplicated. -/
theorem tracking_history_call_order (now : String) (st : State) (b : Body)
    (sid : String) (calls : List (String × Body))
    (hs : Body.hasKey b "shipment_id" = true)
    (ho : Body.hasKey b "origin" = true)
    (hd : Body.hasKey b "destination" = true)
    (hid : Body.getD b "shipment_id" .null = .str sid)
    (hnew : alookup st.shipments (.str sid) = none)
    (hcalls : ∀ c ∈ calls, Body.hasKey c.2 "location" = true) :
    ∃ sh1, alookup (applyUpdates sid (create_shipment now st (some b)).2
        calls).shipments (.str sid) = some sh1 ∧
      sh1.tracking_history =
        { location := Body.getD b "origin" .null
          status := .str "pending"
          timestamp := now
          notes := none } :: calls.map (fun c => updEntry c.1 c.2) ∧
      sh1.tracking_history.length = calls.length + 1 := by
  have hnew2 : alookup st.shipments (Body.getD b "shipment_id" .null) = none := by
    rw [hid]; exact hnew
  have hcr := create_shipment_success now st b hs ho hd hnew2
  have hlook : alookup (create_shipment now st (some b)).2.shipments
      (.str sid) =
      some { shipment_id := Body.getD b "shipment_id" .null
             origin := Body.getD b "origin" .null
             destination := Body.getD b "destination" .null
             status := .str "pending"
             current_location := Body.getD b "origin" .null
             created_at := now
             estimated_delivery := Body.getD b "estimated_delivery" .null
             tracking_history :=
               [{ location := Body.getD b "origin" .null
                  status := .str "pending"
                  timestamp := now
                  notes := none }] } := by
    rw [hcr, ← hid]
    exact alookup_aset_self _ _ _
  obtain ⟨sh1, h1, h2⟩ := applyUpdates_history sid calls _ _ hlook hcalls
  refine ⟨sh1, h1, ?_, ?_⟩
  · rw [h2]
    simp
  · rw [h2]
    simp

/-- Witness for C2 with two concrete location updates. -/
theorem tracking_history_call_order_witness :
    ∃ sh1, alookup (applyUpdates "SHP-001"
        (create_shipment "t0" State.empty
          (some [("shipment_id", Json.str "SHP-001"), ("origin", Json.str "NY"),
            ("destination", Json.str "LA")])).2
        [("t1", [("location", Json.str "Chicago"),
           ("status", Json.str "in_transit")]),
         ("t2", [("location", Json.str "Denver")])]).shipments
        (.str "SHP-001") = some sh1 ∧
      sh1.tracking_history =
        { location := Json.str "NY"
          status := .str "pending"
          timestamp := "t0"
          notes := none } ::
        [("t1", ([("location", Json.str "Chicago"),
            ("status", Json.str "in_transit")] : Body)),
         ("t2", [("location", Json.str "Denver")])].map
          (fun c => updEntry c.1 c.2) ∧
      sh1.tracking_history.length =
        [("t1", ([("location", Json.str "Chicago"),
            ("status", Json.str "in_transit")] : Body)),
         ("t2", [("location", Json.str "Denver")])].length + 1 := by
  have h := tracking_history_call_order "t0" State.empty
    [("shipment_id", Json.str "SHP-001"), ("origin", Json.str "NY"),
     ("destination", Json.str "LA")] "SHP-001"
    [("t1", [("location", Json.str "Chicago"),
       ("status", Json.str "in_transit")]),
     ("t2", [("location", Json.str "Denver")])]
    (by decide) (by decide) (by decide) (by decide) (by decide)
    (by intro c hc
        simp only [List.mem_cons, List.not_mem_nil, or_false] at hc
        rcases hc with h1 | h1 <;> subst h1 <;> decide)
  simpa using h

/-- C7: `updateShipmentLocation` on an existing shipment with a body
containing `location` sets current_location, sets status to body.status
when present and "in_transit" otherwise, appends exactly one tracking
entry (new location, new status, notes = body.notes or ""), and changes
nothing else: the shipment's identity fields, the earlier history, every
other shipment, and the orders and inventory collections are unchanged. -/
theorem update_shipment_location_frame (now : String) (st : State)
    (sid : String) (sh : Shipment) (b : Body)
    (hsh : alookup st.shipments (.str sid) = some sh)
    (hk : Body.hasKey b "location" = true) :
    ∃ sh1,
      update_shipment_location now st sid (some b) =
        (⟨200, .obj [("message", .str "Location updated successfully"),
          ("shipment", sh1.toJson)]⟩,
         { st with shipments := aset st.shipments (.str sid) sh1 }) ∧
      sh1.current_location = Body.getD b "location" .null ∧
      sh1.status = Body.getD b "status" (.str "in_transit") ∧
      sh1.tracking_history = sh.tracking_history ++ [updEntry now b] ∧
      sh1.shipment_id = sh.shipment_id ∧
      sh1.origin = sh.origin ∧
      sh1.destination = sh.destination ∧
      sh1.created_at = sh.created_at ∧
      sh1.estimated_delivery = sh.estimated_delivery ∧
      (∀ k, k ≠ .str sid →
        alookup (update_shipment_location now st sid (some b)).2.shipments k =
          alookup st.shipments k) ∧
      (update_shipment_location now st sid (some b)).2.orders = st.orders ∧
      (update_shipment_location now st sid (some b)).2.inventory =
        st.inventory := by
  have hstep := update_shipment_location_success now st sid sh b hsh hk
  refine ⟨{ sh with
            current_location := Body.getD b "location" .null
            status := Body.getD b "status" (.str "in_transit")
            tracking_history := sh.tracking_history ++ [updEntry now b] },
    hstep, rfl, rfl, rfl, rfl, rfl, rfl, rfl, rfl, ?_, ?_, ?_⟩
  · intro k hkk
    rw [hstep]
    exact alookup_aset_ne _ _ _ _ hkk
  · rw [hstep]
  · rw [hstep]

/-- Witness for C7: one concrete update on a freshly created shipment. -/
theorem update_shipment_location_frame_witness :
    ∃ sh1,
      update_shipment_location "t1"
          (create_shipment "t0" State.empty
            (some [("shipment_id", Json.str "SHP-001"),
              ("origin", Json.str "NY"),
              ("destination", Json.str "LA")])).2
          "SHP-001" (some [("location", Json.str "Chicago")]) =
        (⟨200, .obj [("message", .str "Location updated successfully"),
          ("shipment", sh1.toJson)]⟩,
         { (create_shipment "t0" State.empty
              (some [("shipment_id", Json.str "SHP-001"),
                ("origin", Json.str "NY"),
                ("destination", Json.str "LA")])).2 with
            shipments :=
              aset (create_shipment "t0" State.empty
                (some [("shipment_id", Json.str "SHP-001"),
                  ("origin", Json.str "NY"),
                  ("destination", Json.str "LA")])).2.shipments
                (.str "SHP-001") sh1 }) ∧
      sh1.current_location = Json.str "Chicago" ∧
      sh1.status = Json.str "in_transit" ∧
      sh1.tracking_history.length = 2 := by
  obtain ⟨sh1, h1, h2, h3, h4, -, -, -, -, -, -, -, -⟩ :=
    update_shipment_location_frame "t1"
      (create_shipment "t0" State.empty
        (some [("shipment_id", Json.str "SHP-001"), ("origin", Json.str "NY"),
          ("destination", Json.str "LA")])).2
      "SHP-001"
      { shipment_id := Json.str "SHP-001"
        origin := Json.str "NY"
        destination := Json.str "LA"
        status := .str "pending"
        current_location := Json.str "NY"
        created_at := "t0"
        estimated_delivery := Json.null
        tracking_history :=
          [{ location := Json.str "NY"
             status := .str "pending"
             timestamp := "t0"
             notes := none }] }
      [("location", Json.str "Chicago")] (by decide) (by decide)
  refine ⟨sh1, h1, by simpa using h2, by simpa using h3, ?_⟩
  rw [h4]
  simp

theorem update_stock_missing (now : String) (st : State) (item_id : String)
    (it : InventoryItem) (data : Option Body)
    (hit : alookup st.inventory (.str item_id) = some it)
    (h : (!bodyTruthy data || !bodyHasKey data "quantity") = true) :
    update_stock now st item_id data =
      (errResp 400 "Quantity is required", st) := by
  simp only [update_stock, hit]
  rw [if_pos h]

theorem update_stock_cases (now : String) (st : State) (item_id : String)
    (it : InventoryItem) (b : Body)
    (hit : alookup st.inventory (.str item_id) = some it)
    (hk : Body.hasKey b "quantity" = true) :
    (pyInt (Body.getD b "quantity" .null) = none →
      update_stock now st item_id (some b) =
        (errResp 400 "Quantity must be a valid integer", st)) ∧
    (∀ q, pyInt (Body.getD b "quantity" .null) = some q →
      (q < 0 → update_stock now st item_id (some b) =
        (errResp 400 "Quantity must be non-negative", st)) ∧
      (0 ≤ q → update_stock now st item_id (some b) =
        (⟨200, .obj [("message", .str "Stock updated successfully"),
          ("item", InventoryItem.toJson
            { it with quantity := q, last_updated := now })]⟩,
         { st with
            inventory :=
              aset st.inventory (.str item_id)
                { it with quantity := q, last_updated := now } }))) := by
  have ht := bodyTruthy_of_hasKey hk
  refine ⟨?_, ?_⟩
  · intro hnone
    simp [update_stock, hit, bodyHasKey, ht, hk, hnone]
  · intro q hq
    refine ⟨?_, ?_⟩
    · intro hlt
      simp [update_stock, hit, bodyHasKey, ht, hk, hq, hlt]
    · intro hge
      have hnlt : ¬ q < 0 := not_lt.mpr hge
      simp [update_stock, hit, bodyHasKey, ht, hk, hq, hnlt]

/-- C4: on an existing inventory item, `updateStock` returns 400 and
leaves the whole store (hence the stored item, its quantity and its
last_updated) unchanged when the quantity is missing, unparseable
("Quantity must be a valid integer") or negative ("Quantity must be
non-negative"); on a valid quantity it overwrites exactly `quantity` and
`last_updated` and returns 200 with the updated record. -/
theorem update_stock_validation (now : String) (st : State)
    (item_id : String) (it : InventoryItem) (data : Option Body)
    (hit : alookup st.inventory (.str item_id) = some it) :
    ((!bodyTruthy data || !bodyHasKey data "quantity") = true →
      update_stock now st item_id data =
        (errResp 400 "Quantity is required", st)) ∧
    (∀ b, data = some b → Body.hasKey b "quantity" = true →
      (pyInt (Body.getD b "quantity" .null) = none →
        update_stock now st item_id data =
          (errResp 400 "Quantity must be a valid integer", st)) ∧
      (∀ q, pyInt (Body.getD b "quantity" .null) = some q →
        (q < 0 → update_stock now st item_id data =
          (errResp 400 "Quantity must be non-negative", st)) ∧
        (0 ≤ q → update_stock now st item_id data =
          (⟨200, .obj [("message", .str "Stock updated successfully"),
            ("item", InventoryItem.toJson
              { it with quantity := q, last_updated := now })]⟩,
           { st with
              inventory :=
                aset st.inventory (.str item_id)
                  { it with quantity := q, last_updated := now } })))) := by
  refine ⟨update_stock_missing now st item_id it data hit, ?_⟩
  intro b hb hk
  subst hb
  exact update_stock_cases now st item_id it b hit hk

/-- Witness for C4: the spec's end-to-end example — add ITM-001 with
quantity 100, then update with -5: 400 and the store is unchanged. -/
theorem update_stock_validation_witness :
    update_stock "t1"
        (add_inventory_item "t0" State.empty
          (some [("item_id", Json.str "ITM-001"), ("name", Json.str "Widget"),
            ("quantity", Json.int 100)])).2
        "ITM-001" (some [("quantity", Json.int (-5))]) =
      (errResp 400 "Quantity must be non-negative",
       (add_inventory_item "t0" State.empty
         (some [("item_id", Json.str "ITM-001"), ("name", Json.str "Widget"),
           ("quantity", Json.int 100)])).2) :=
  (((update_stock_validation "t1" _ "ITM-001"
      { item_id := Json.str "ITM-001"
        name := Json.str "Widget"
        quantity := 100
        location := Json.str "Warehouse"
        category := Json.str "General"
        last_updated := "t0" }
      (some [("quantity", Json.int (-5))]) (by decide)).2
    [("quantity", Json.int (-5))] rfl (by decide)).2 (-5) (by decide)).1
    (by decide)

theorem add_inventory_item_success (now : String) (st : State) (b : Body)
    (q : Int)
    (hi : Body.hasKey b "item_id" = true)
    (hn : Body.hasKey b "name" = true)
    (hq : Body.hasKey b "quantity" = true)
    (hnew : alookup st.inventory (Body.getD b "item_id" .null) = none)
    (hp : pyInt (Body.getD b "quantity" .null) = some q)
    (hge : 0 ≤ q) :
    add_inventory_item now st (some b) =
      (⟨201, .obj [("message", .str "Inventory item added successfully"),
        ("item", InventoryItem.toJson
          { item_id := Body.getD b "item_id" .null
            name := Body.getD b "name" .null
            quantity := q
            location := Body.getD b "location" (.str "Warehouse")
            category := Body.getD b "category" (.str "General")
            last_updated := now })]⟩,
       { st with
          inventory :=
            aset st.inventory (Body.getD b "item_id" .null)
              { item_id := Body.getD b "item_id" .null
                name := Body.getD b "name" .null
                quantity := q
                location := Body.getD b "location" (.str "Warehouse")
                category := Body.getD b "category" (.str "General")
                last_updated := now } }) := by
  have ht := bodyTruthy_of_hasKey hi
  have hnlt : ¬ q < 0 := not_lt.mpr hge
  simp [add_inventory_item, bodyHasKey, ht, hi, hn, hq, hnew, hp, hnlt]

/-- C10: the quantity check is Python `int()` conversion, not an
integer-type check. On an existing item, `updateStock` returns the
"Quantity must be a valid integer" 400 exactly when `int()` raises
(`pyInt` is `none`), and stores the converted value whenever `int()`
succeeds with a non-negative result; `addInventoryItem` likewise stores
the converted value. In particular 3.7 converts to 3, -0.5 to 0 (passing
the non-negative check), true to 1, while "3.7" and null raise. -/
theorem quantity_python_int_semantics (now : String) (st : State)
    (item_id : String) (it : InventoryItem) (b : Body)
    (hit : alookup st.inventory (.str item_id) = some it)
    (hk : Body.hasKey b "quantity" = true) :
    ((update_stock now st item_id (some b)).1 =
        errResp 400 "Quantity must be a valid integer" ↔
      pyInt (Body.getD b "quantity" .null) = none) ∧
    (∀ q, pyInt (Body.getD b "quantity" .null) = some q → 0 ≤ q →
      ∃ it1, alookup (update_stock now st item_id (some b)).2.inventory
          (.str item_id) = some it1 ∧ it1.quantity = q ∧
        (update_stock now st item_id (some b)).1.status = 200) ∧
    (∀ q, Body.hasKey b "item_id" = true → Body.hasKey b "name" = true →
      alookup st.inventory (Body.getD b "item_id" .null) = none →
      pyInt (Body.getD b "quantity" .null) = some q → 0 ≤ q →
      ∃ it1, alookup (add_inventory_item now st (some b)).2.inventory
          (Body.getD b "item_id" .null) = some it1 ∧ it1.quantity = q) ∧
    pyInt (Json.float (mkRat 37 10)) = some 3 ∧
    pyInt (Json.float (mkRat (-1) 2)) = some 0 ∧
    pyInt (Json.bool true) = some 1 ∧
    pyInt (Json.str "3.7") = none ∧
    pyInt Json.null = none := by
  refine ⟨⟨?_, ?_⟩, ?_, ?_, by decide, by decide, by decide, by decide,
    by decide⟩
  · intro h
    cases hp : pyInt (Body.getD b "quantity" .null) with
    | none => rfl
    | some q =>
      exfalso
      by_cases hlt : q < 0
      · have he :=
          ((update_stock_cases now st item_id it b hit hk).2 q hp).1 hlt
        rw [he] at h
        have h3 : errResp 400 "Quantity must be non-negative" =
            errResp 400 "Quantity must be a valid integer" := h
        exact absurd h3 (by decide)
      · have he := ((update_stock_cases now st item_id it b hit hk).2 q
          hp).2 (le_of_not_lt hlt)
        rw [he] at h
        have h2 := congrArg Response.status h
        simp [errResp] at h2
  · intro hnone
    rw [(update_stock_cases now st item_id it b hit hk).1 hnone]
  · intro q hp hge
    have he := ((update_stock_cases now st item_id it b hit hk).2 q hp).2 hge
    rw [he]
    exact ⟨_, alookup_aset_self _ _ _, rfl, rfl⟩
  · intro q hi hn hnew hp hge
    have he := add_inventory_item_success now st b q hi hn hk hnew hp hge
    rw [he]
    exact ⟨_, alookup_aset_self _ _ _, rfl⟩

/-- Witness for C10: updating ITM-001 with the float 3.7 stores 3. -/
theorem quantity_python_int_semantics_witness :
    ∃ it1, alookup (update_stock "t1"
        (add_inventory_item "t0" State.empty
          (some [("item_id", Json.str "ITM-001"), ("name", Json.str "Widget"),
            ("quantity", Json.int 100)])).2
        "ITM-001"
        (some [("quantity", Json.float (mkRat 37 10))])).2.inventory
        (.str "ITM-001") = some it1 ∧ it1.quantity = 3 ∧
      (update_stock "t1"
        (add_inventory_item "t0" State.empty
          (some [("item_id", Json.str "ITM-001"), ("name", Json.str "Widget"),
            ("quantity", Json.int 100)])).2
        "ITM-001"
        (some [("quantity", Json.float (mkRat 37 10))])).1.status = 200 :=
  (quantity_python_int_semantics "t1" _ "ITM-001"
    { item_id := Json.str "ITM-001"
      name := Json.str "Widget"
      quantity := 100
      location := Json.str "Warehouse"
      category := Json.str "General"
      last_updated := "t0" }
    [("quantity", Json.float (mkRat 37 10))]
    (by decide) (by decide)).2.1 3 (by decide) (by decide)

theorem add_inventory_item_quant (now : String) (st : State)
    (data : Option Body) (h : invQuantOK st) :
    invQuantOK (add_inventory_item now st data).2 := by
  intro k it1 hk
  unfold add_inventory_item at hk
  split at hk
  · exact h k it1 hk
  · dsimp only at hk
    split at hk
    · exact h k it1 hk
    · split at hk
      · exact h k it1 hk
      · rename_i q hq
        split at hk
        · exact h k it1 hk
        · rename_i hnlt
          simp only at hk
          rcases alookup_aset_cases _ _ _ _ _ hk with h1 | h1
          · rw [h1]
            dsimp only
            omega
          · exact h k it1 h1

theorem update_stock_quant (now : String) (st : State) (item_id : String)
    (data : Option Body) (h : invQuantOK st) :
    invQuantOK (update_stock now st item_id data).2 := by
  intro k it1 hk
  unfold update_stock at hk
  split at hk
  · exact h k it1 hk
  · split at hk
    · exact h k it1 hk
    · dsimp only at hk
      split at hk
      · exact h k it1 hk
      · rename_i q hq
        split at hk
        · exact h k it1 hk
        · rename_i hnlt
          simp only at hk
          rcases alookup_aset_cases _ _ _ _ _ hk with h1 | h1
          · rw [h1]
            dsimp only
            omega
          · exact h k it1 h1

/-- C1: in every state reachable from the empty store by any sequence of
`addInventoryItem` and `updateStock` calls, every stored inventory item
has quantity ≥ 0: both operations reject a parsed quantity below zero
with a 400 before writing. -/
theorem inventory_quantity_nonneg (st : State) (h : ReachInv st) :
    invQuantOK st := by
  induction h with
  | empty =>
    intro k it hk
    simp [State.empty, alookup] at hk
  | add now data _ ih => exact add_inventory_item_quant now _ data ih
  | upd now item_id data _ ih => exact update_stock_quant now _ item_id data ih

/-- Witness for C1: the invariant holds after one concrete add followed by
one concrete stock update. -/
theorem inventory_quantity_nonneg_witness :
    invQuantOK (update_stock "t1"
      (add_inventory_item "t0" State.empty
        (some [("item_id", Json.str "ITM-001"), ("name", Json.str "Widget"),
          ("quantity", Json.int 100)])).2
      "ITM-001" (some [("quantity", Json.int 7)])).2 :=
  inventory_quantity_nonneg _
    (ReachInv.upd "t1" "ITM-001" (some [("quantity", Json.int 7)])
      (ReachInv.add "t0"
        (some [("item_id", Json.str "ITM-001"), ("name", Json.str "Widget"),
          ("quantity", Json.int 100)])
        ReachInv.empty))

/-- C5: on an `order_id` already present in the orders collection, a
second `createOrder` with that id returns 409 "Order already exists",
leaves the whole store unchanged, and the record stored under that id is
still the one the first call produced. -/
theorem create_order_duplicate_conflict (now : String) (st : State)
    (b : Body) (o : Order)
    (hk : Body.hasKey b "order_id" = true)
    (hdup : alookup st.orders (Body.getD b "order_id" .null) = some o) :
    create_order now st (some b) = (errResp 409 "Order already exists", st) ∧
    alookup (create_order now st (some b)).2.orders
      (Body.getD b "order_id" .null) = some o := by
  have ht := bodyTruthy_of_hasKey hk
  have h1 : create_order now st (some b) =
      (errResp 409 "Order already exists", st) := by
    simp [create_order, bodyHasKey, ht, hk, hdup]
  refine ⟨h1, ?_⟩
  rw [h1]
  exact hdup

/-- Witness for C5: creating ORD-1 twice. -/
theorem create_order_duplicate_conflict_witness :
    create_order "t1"
        (create_order "t0" State.empty
          (some [("order_id", Json.str "ORD-1")])).2
        (some [("order_id", Json.str "ORD-1")]) =
      (errResp 409 "Order already exists",
       (create_order "t0" State.empty
         (some [("order_id", Json.str "ORD-1")])).2) ∧
    alookup (create_order "t1"
        (create_order "t0" State.empty
          (some [("order_id", Json.str "ORD-1")])).2
        (some [("order_id", Json.str "ORD-1")])).2.orders
        (Body.getD [("order_id", Json.str "ORD-1")] "order_id" .null) =
      some { order_id := Json.str "ORD-1"
             customer := Json.str "Unknown"
             items := Json.arr []
             status := "created"
             created_at := "t0" } :=
  create_order_duplicate_conflict "t1" _ [("order_id", Json.str "ORD-1")]
    { order_id := Json.str "ORD-1"
      customer := Json.str "Unknown"
      items := Json.arr []
      status := "created"
      created_at := "t0" }
    (by decide) (by decide)

/-- C9: for a body containing `order_id` (a string `oid` not already a
key), `createOrder` followed by `getOrder oid` returns 200 with a record
whose order_id is the supplied one and whose status is "created". -/
theorem create_then_get_order (now : String) (st : State) (b : Body)
    (oid : String)
    (hk : Body.hasKey b "order_id" = true)
    (hid : Body.getD b "order_id" .null = .str oid)
    (hnew : alookup st.orders (.str oid) = none) :
    get_order (create_order now st (some b)).2 oid =
      ⟨200, Order.toJson
        { order_id := .str oid
          customer := Body.getD b "customer" (.str "Unknown")
          items := Body.getD b "items" (.arr [])
          status := "created"
          created_at := now }⟩ := by
  have ht := bodyTruthy_of_hasKey hk
  have hnew2 : alookup st.orders (Body.getD b "order_id" .null) = none := by
    rw [hid]
    exact hnew
  have h1 : (create_order now st (some b)).2.orders =
      aset st.orders (.str oid)
        { order_id := .str oid
          customer := Body.getD b "customer" (.str "Unknown")
          items := Body.getD b "items" (.arr [])
          status := "created"
          created_at := now } := by
    simp [create_order, bodyHasKey, ht, hk, hnew2, hid, hnew]
  simp only [get_order, h1, alookup_aset_self]

/-- Witness for C9 at a concrete order payload. -/
theorem create_then_get_order_witness :
    get_order (create_order "t0" State.empty
        (some [("order_id", Json.str "ORD-1"),
          ("customer", Json.str "Ada")])).2 "ORD-1" =
      ⟨200, Order.toJson
        { order_id := Json.str "ORD-1"
          customer := Json.str "Ada"
          items := Json.arr []
          status := "created"
          created_at := "t0" }⟩ := by
  have h := create_then_get_order "t0" State.empty
    [("order_id", Json.str "ORD-1"), ("customer", Json.str "Ada")] "ORD-1"
    (by decide) (by decide) (by decide)
  simpa using h

/-- C8 counterexample: the status filter can be provided as the empty
string (query `?status=`), which the code's truthiness test
(`if status_filter:`) treats as absent. With one "pending" shipment
stored, no shipment has status "", so the claim predicts count 0 and an
empty list — but the code returns all shipments. -/
theorem list_shipments_empty_filter_cex :
    ((create_shipment "t0" State.empty
        (some [("shipment_id", Json.str "S1"), ("origin", Json.str "A"),
          ("destination", Json.str "B")])).2.shipments.map Prod.snd).filter
        (fun s => decide (s.status = Json.str "")) = [] ∧
    (list_shipments
        (create_shipment "t0" State.empty
          (some [("shipment_id", Json.str "S1"), ("origin", Json.str "A"),
            ("destination", Json.str "B")])).2 (some "")).body ≠
      Json.obj [("count", Json.int 0), ("shipments", Json.arr [])] := by
  decide

/-- C8 (amended): `listShipments` with no filter — or with an
empty-string filter, which the code treats as absent — returns all
shipments; with a non-empty filter it returns exactly those shipments
whose status equals the filter value; in every case the returned count
is the length of the returned shipments list. -/
theorem list_shipments_filter (st : State) (status_filter : Option String) :
    ∃ l : List Shipment,
      list_shipments st status_filter =
        ⟨200, .obj [("count", .int l.length),
          ("shipments", .arr (l.map Shipment.toJson))]⟩ ∧
      (strOptTruthy status_filter = false → l = st.shipments.map Prod.snd) ∧
      (∀ f, status_filter = some f → f ≠ "" →
        l = (st.shipments.map Prod.snd).filter
          (fun s => decide (s.status = .str f))) := by
  by_cases h : strOptTruthy status_filter = true
  · refine ⟨(st.shipments.map Prod.snd).filter
      (fun s => decide (s.status = .str (status_filter.getD ""))),
      by simp [list_shipments, h], by simp [h], ?_⟩
    intro f hf _
    subst hf
    simp
  · rw [Bool.not_eq_true] at h
    refine ⟨st.shipments.map Prod.snd,
      by simp [list_shipments, h], fun _ => rfl, ?_⟩
    intro f hf hne
    exfalso
    subst hf
    simp [strOptTruthy, String.isEmpty_iff] at h
    exact hne h
